import Mathlib

/-!
Verification of the Spark GC/OOM log-diagnosis engine.

The development shallowly embeds the pure text-processing core of the
repository: the GC indicator extractor and log-access tools of
`spark_deep_agent_example.py` and the failure classifier and log lookup of
`spark_gc_oom_demo.py`.  Log texts are modelled as lists of characters and
the Python string primitives (`in`, `count`, `split`, `strip`, `lower`,
`int`) are given as executable Lean functions faithful to Python semantics
on the inputs the program handles.  Averages are modelled as rational
numbers (Python computes them in floating point; the values asserted here
are exact).
-/

set_option maxRecDepth 20000

/-- A Python string, modelled as its list of characters. -/
abbrev Str := List Char

/-- Does `pat` occur at the very start of `text`?  (Helper for the model of
Python's `in`, `count` and `split`.) -/
def listStartsWith : Str → Str → Bool
  | [], _ => true
  | _ :: _, [] => false
  | p :: ps, c :: cs => p == c && listStartsWith ps cs

/-- Model of Python's substring test `pat in text`. -/
def containsSub (pat : Str) : Str → Bool
  | [] => listStartsWith pat []
  | c :: rest => listStartsWith pat (c :: rest) || containsSub pat rest

/-- Worker for `pyCount`: scans `text` left to right, skipping past each
match (non-overlapping), with `fuel` bounding the recursion so the
definition is structural and kernel-reducible. -/
def pyCountGo (pat : Str) : Nat → Str → Nat
  | _, [] => 0
  | 0, _ => 0
  | fuel + 1, c :: rest =>
    if listStartsWith pat (c :: rest) then
      pyCountGo pat fuel ((c :: rest).drop pat.length) + 1
    else
      pyCountGo pat fuel rest

/-- Model of Python's `text.count(pat)`: the number of non-overlapping
occurrences of `pat` in `text`, scanning left to right (Python counts an
empty pattern once per position, `len(text) + 1` times). -/
def pyCount (pat text : Str) : Nat :=
  if pat.isEmpty then text.length + 1 else pyCountGo pat text.length text

/-- Worker for `pySplit`, fuelled like `pyCountGo`. -/
def pySplitGo (sep : Str) : Nat → Str → List Str
  | _, [] => [[]]
  | 0, t => [t]
  | fuel + 1, c :: rest =>
    if listStartsWith sep (c :: rest) then
      [] :: pySplitGo sep fuel ((c :: rest).drop sep.length)
    else
      match pySplitGo sep fuel rest with
      | [] => [[c]]
      | h :: t => (c :: h) :: t

/-- Model of Python's `text.split(sep)` for a non-empty separator: the
segments of `text` between consecutive non-overlapping occurrences of
`sep` (Python raises on an empty separator; the program only splits on
`"\n"`, `"took"` and `"ms"`, so that case is given a harmless value). -/
def pySplit (sep text : Str) : List Str :=
  if sep.isEmpty then [text] else pySplitGo sep text.length text

/-- The whitespace characters stripped by Python's `str.strip` (ASCII
range; the logs contain no other whitespace). -/
def pyWhitespace (c : Char) : Bool :=
  c == ' ' || c == '\t' || c == '\n' || c == '\r' || c == Char.ofNat 11 || c == Char.ofNat 12

/-- Model of Python's `text.strip()`. -/
def pyStrip (s : Str) : Str :=
  ((s.dropWhile pyWhitespace).reverse.dropWhile pyWhitespace).reverse

/-- Value of an ASCII decimal digit, `none` for any other character. -/
def digitVal (c : Char) : Option Nat :=
  if '0' ≤ c ∧ c ≤ '9' then some (c.toNat - '0'.toNat) else none

/-- Digits after the first one, allowing the single underscores Python's
`int` accepts between digits. -/
def parseDigitsCore (acc : Nat) : Str → Option Nat
  | [] => some acc
  | ['_'] => none
  | '_' :: c :: rest =>
    match digitVal c with
    | some d => parseDigitsCore (acc * 10 + d) rest
    | none => none
  | c :: rest =>
    match digitVal c with
    | some d => parseDigitsCore (acc * 10 + d) rest
    | none => none

/-- A non-empty digit string (first character must be a digit). -/
def parseDigitsStart : Str → Option Nat
  | [] => none
  | c :: rest =>
    match digitVal c with
    | some d => parseDigitsCore d rest
    | none => none

/-- Model of Python's `int(s)` on ASCII input: optional surrounding
whitespace, an optional sign, then decimal digits (with the underscore
grouping Python permits); `none` models the raised `ValueError`. -/
def pyInt (s : Str) : Option Int :=
  match pyStrip s with
  | '+' :: rest => (parseDigitsStart rest).map Int.ofNat
  | '-' :: rest => (parseDigitsStart rest).map fun n => -(n : Int)
  | rest => (parseDigitsStart rest).map Int.ofNat

/-- ASCII lowercasing of one character (model of `str.lower` on the ASCII
range, which covers the log corpus). -/
def asciiLower (c : Char) : Char :=
  if 'A' ≤ c ∧ c ≤ 'Z' then Char.ofNat (c.toNat + 32) else c

/-- Model of Python's `text.lower()`. -/
def lowerStr (s : Str) : Str := s.map asciiLower

/-- Model of Python's `max` on a list of integers (`0` only as the unused
default on the empty list, matching the call sites' guards). -/
def listMaxI : List Int → Int
  | [] => 0
  | c :: rest => rest.foldl max c

/-- Sum of a list of integers. -/
def intSum (l : List Int) : Int := l.foldl (· + ·) 0

/-- Decimal rendering of a natural number, as Python's `str`. -/
def natStr (n : Nat) : Str := Nat.toDigits 10 n

/-- Decimal rendering of an integer, as Python's `str`. -/
def intStr (i : Int) : Str :=
  if i < 0 then '-' :: Nat.toDigits 10 i.natAbs else Nat.toDigits 10 i.natAbs

/-- Floor of a rational number, computed from its normalised fraction. -/
def qFloor (q : ℚ) : Int := Int.fdiv q.num q.den

/-- Round a rational to the nearest integer, ties to even — the rounding
Python's `format(x, ".0f")` applies.  Computed on the numerator and
denominator directly: with `n = ⌊q⌋` and remainder `rem = num - n·den`,
the fractional part compares to `1/2` as `2·rem` compares to `den`. -/
def roundQ (q : ℚ) : Int :=
  let n := qFloor q
  let rem := q.num - n * (q.den : Int)
  if 2 * rem < (q.den : Int) then n
  else if (q.den : Int) < 2 * rem then n + 1
  else if n % 2 = 0 then n else n + 1

/-- Model of Python's `f"{x:.0f}"` on the (rational model of the) average:
round half to even; a negative value rounding to zero prints as `-0`. -/
def fmtAvg (q : ℚ) : Str :=
  if roundQ q = 0 ∧ q < 0 then ['-', '0'] else intStr (roundQ q)

/-- An ASCII apostrophe (used by `get_log`'s error message). -/
def squote : Str := [Char.ofNat 39]

/-! ## Marker substrings used by the extractors and the classifier -/

/-- Marker counted by `full_gc_events`. -/
def fullGcStr : Str := "Full GC event".data

/-- Marker guarding GC-duration extraction. -/
def fullGcTookStr : Str := "Full GC event took".data

/-- Marker counted by `gc_warnings`. -/
def gcTimeExceededStr : Str := "GC time exceeded".data

/-- First half of the extractor's heartbeat-timeout test. -/
def heartbeatStr : Str := "heartbeat".data

/-- Second half of the extractor's heartbeat-timeout test. -/
def timeoutStr : Str := "timeout".data

/-- The demo classifier's driver-side heartbeat marker. -/
def heartbeatTimeoutStr : Str := "heartbeat timeout".data

/-- The GC-overhead marker that short-circuits the classifier. -/
def gcOverheadStr : Str := "GC overhead limit exceeded".data

/-- The stuck-in-GC marker. -/
def stuckInGcStr : Str := "stuck in GC".data

/-- Heap-space OOM marker. -/
def heapSpaceOomStr : Str := "OutOfMemoryError: Java heap space".data

/-- Container-killed marker. -/
def containerKilledStr : Str := "Container killed".data

/-- Memory-limit marker. -/
def exceedingLimitsStr : Str := "exceeding memory limits".data

/-- Zero-free-memory markers. -/
def freeZeroDotStr : Str := "free 0.0 B".data

/-- Zero-free-memory marker without the decimal point. -/
def freeZeroStr : Str := "free 0 B".data

/-- Separator used to iterate over log lines. -/
def newlineStr : Str := "\n".data

/-- Separator in the duration parse (`line.split("took")`). -/
def tookStr : Str := "took".data

/-- Separator in the duration parse (`.split("ms")`). -/
def msStr : Str := "ms".data

/-! ## GC indicator extractor (`search_gc_indicators`) -/

/-- The dictionary returned by `search_gc_indicators`. -/
structure GcIndicators where
  full_gc_events : Nat
  gc_warnings : Nat
  heartbeat_timeout : Bool
  gc_overhead : Bool
  stuck_in_gc : Bool
  gc_event_times_ms : List Int
  max_gc_time_ms : Int
  avg_gc_time_ms : ℚ
deriving DecidableEq

/-- The duration parse applied to one line already known to contain
`"Full GC event took"`: `int(line.split("took")[1].split("ms")[0].strip())`,
with `none` modelling the swallowed exception. -/
def parseGcTime (line : Str) : Option Int :=
  match (pySplit tookStr line).drop 1 with
  | [] => none
  | seg :: _ => pyInt (pyStrip ((pySplit msStr seg).headD []))

/-- The `gc_times` loop shared verbatim by `search_gc_indicators` and the
demo classifier: for each line containing `"Full GC event took"`, append the
parsed duration if parsing succeeds, silently skipping the line otherwise. -/
def gcTimesOf (log : Str) : List Int :=
  (pySplit newlineStr log).filterMap fun line =>
    if containsSub fullGcTookStr line then parseGcTime line else none

/-- Embedding of `search_gc_indicators` from `spark_deep_agent_example.py`. -/
def search_gc_indicators (log : Str) : GcIndicators :=
  let times := gcTimesOf log
  { full_gc_events := pyCount fullGcStr log
    gc_warnings := pyCount gcTimeExceededStr log
    heartbeat_timeout :=
      containsSub heartbeatStr (lowerStr log) && containsSub timeoutStr (lowerStr log)
    gc_overhead := containsSub gcOverheadStr log
    stuck_in_gc := containsSub stuckInGcStr log
    gc_event_times_ms := times
    max_gc_time_ms := if times.isEmpty then 0 else listMaxI times
    avg_gc_time_ms := if times.isEmpty then 0 else mkRat (intSum times) times.length }

/-! ## Log fixtures and keyed log access of `spark_deep_agent_example.py` -/

/-- The `DRIVER_LOG_OOM` fixture. -/
def DRIVER_LOG_OOM : Str :=
  ("\n2025-10-01 10:23:45 INFO TaskSetManager: Starting task 0.0 in stage 3.0 (TID 150, executor 1, partition 0, PROCESS_LOCAL)\n2025-10-01 10:24:12 INFO TaskSetManager: Starting task 1.0 in stage 3.0 (TID 151, executor 1, partition 1, PROCESS_LOCAL)\n2025-10-01 10:24:45 WARN TaskSetManager: Lost task 0.0 in stage 3.0 (TID 150, executor 1): ExecutorLostFailure (executor 1 exited caused by one of the running tasks) Reason: Container killed by YARN for exceeding memory limits\n2025-10-01 10:24:45 ERROR TaskSchedulerImpl: Lost executor 1 on worker-node-3: Container killed by YARN for exceeding memory limits\n2025-10-01 10:24:46 WARN TaskSetManager: Lost task 1.0 in stage 3.0 (TID 151, executor 1): ExecutorLostFailure (executor 1 exited caused by one of the running tasks)\n2025-10-01 10:24:47 INFO DAGScheduler: Executor lost: 1 (epoch 5)\n").data

/-- The `EXECUTOR_1_LOG_OOM` fixture. -/
def EXECUTOR_1_LOG_OOM : Str :=
  ("\n2025-10-01 10:23:45 INFO Executor: Running task 0.0 in stage 3.0 (TID 150)\n2025-10-01 10:24:00 INFO MemoryStore: Block rdd_45_0 stored as bytes in memory (estimated size 512.0 MB, free 256.0 MB)\n2025-10-01 10:24:15 WARN MemoryStore: Not enough space to cache rdd_45_1 in memory! (computed 1024.0 MB so far)\n2025-10-01 10:24:20 INFO MemoryStore: Block rdd_45_1 stored as bytes in memory (estimated size 1024.0 MB, free 0.0 B)\n2025-10-01 10:24:30 ERROR Executor: Exception in task 0.0 in stage 3.0 (TID 150)\njava.lang.OutOfMemoryError: Java heap space\n\tat java.util.Arrays.copyOf(Arrays.java:3332)\n\tat java.io.ByteArrayOutputStream.grow(ByteArrayOutputStream.java:118)\n\tat org.apache.spark.util.ByteBufferOutputStream.write(ByteBufferOutputStream.scala:41)\n2025-10-01 10:24:45 FATAL Container: Process killed by YARN: Container [pid=12345] is running beyond physical memory limits. Current usage: 4.2 GB of 4 GB physical memory used; killing container.\n").data

/-- The `DRIVER_LOG_GC` fixture. -/
def DRIVER_LOG_GC : Str :=
  ("\n2025-10-01 11:15:30 INFO TaskSetManager: Starting task 0.0 in stage 5.0 (TID 200, executor 2, partition 0, PROCESS_LOCAL)\n2025-10-01 11:15:35 INFO TaskSetManager: Starting task 1.0 in stage 5.0 (TID 201, executor 2, partition 1, PROCESS_LOCAL)\n2025-10-01 11:16:00 WARN TaskSetManager: Lost task 0.0 in stage 5.0 (TID 200, executor 2): ExecutorLostFailure (executor 2 exited unrelated to the running tasks)\n2025-10-01 11:16:00 ERROR TaskSchedulerImpl: Lost executor 2 on worker-node-5: Remote RPC client disassociated. Likely due to heartbeat timeout.\n2025-10-01 11:16:01 INFO DAGScheduler: Executor lost: 2 (epoch 8)\n2025-10-01 11:16:01 WARN HeartbeatReceiver: Removing executor 2 with no recent heartbeats: 150000 ms exceeds timeout 120000 ms\n").data

/-- The `EXECUTOR_2_LOG_GC` fixture. -/
def EXECUTOR_2_LOG_GC : Str :=
  ("\n2025-10-01 11:15:30 INFO Executor: Running task 0.0 in stage 5.0 (TID 200)\n2025-10-01 11:15:32 INFO MemoryStore: Block rdd_67_0 stored as bytes in memory (estimated size 800.0 MB, free 1.2 GB)\n2025-10-01 11:15:40 WARN Executor: GC time exceeded 10% threshold (12% of total time)\n2025-10-01 11:15:45 WARN Executor: Full GC event took 45000 ms\n2025-10-01 11:15:50 WARN Executor: Full GC event took 52000 ms\n2025-10-01 11:15:55 WARN Executor: Full GC event took 48000 ms\n2025-10-01 11:15:58 INFO Executor: Total GC time in last interval: 145000 ms (58% of interval)\n2025-10-01 11:16:00 ERROR CoarseGrainedExecutorBackend: Cannot send heartbeat to driver, executor appears to be stuck in GC\n2025-10-01 11:16:00 WARN CoarseGrainedExecutorBackend: Executor heartbeat timed out after 150000 ms\n").data

/-- The `EXECUTOR_3_LOG_MIXED` fixture. -/
def EXECUTOR_3_LOG_MIXED : Str :=
  ("\n2025-10-01 12:00:00 INFO Executor: Running task 0.0 in stage 7.0 (TID 300)\n2025-10-01 12:00:05 INFO MemoryStore: Block rdd_89_0 stored as bytes in memory (estimated size 1.5 GB, free 500.0 MB)\n2025-10-01 12:00:10 WARN Executor: GC time exceeded 10% threshold (15% of total time)\n2025-10-01 12:00:15 WARN Executor: Full GC event took 35000 ms\n2025-10-01 12:00:20 WARN MemoryStore: Not enough space to cache rdd_89_1 in memory!\n2025-10-01 12:00:25 WARN Executor: Full GC event took 42000 ms\n2025-10-01 12:00:30 ERROR Executor: Exception in task 0.0 in stage 7.0 (TID 300)\njava.lang.OutOfMemoryError: GC overhead limit exceeded\n\tat org.apache.spark.memory.MemoryManager.acquireExecutionMemory\n2025-10-01 12:00:35 FATAL Container: Process killed by YARN for exceeding memory limits\n").data

/-- Embedding of `get_driver_log`: the `"gc"` scenario returns the GC
driver log; every other scenario string falls through to the OOM driver
log. -/
def get_driver_log (scenario : Str) : Str :=
  if scenario = "gc".data then DRIVER_LOG_GC else DRIVER_LOG_OOM

/-- Embedding of `get_executor_log`: keyed on the executor id and scenario,
with a formatted error string for unmatched combinations. -/
def get_executor_log (executor_id : Int) (scenario : Str) : Str :=
  if scenario = "gc".data ∧ executor_id = 2 then EXECUTOR_2_LOG_GC
  else if scenario = "mixed".data ∧ executor_id = 3 then EXECUTOR_3_LOG_MIXED
  else if executor_id = 1 then EXECUTOR_1_LOG_OOM
  else
    "Error: No log data for executor ".data ++ intStr executor_id ++
      " in scenario ".data ++ scenario

/-! ## Failure classifier of `spark_gc_oom_demo.py` -/

/-- The `failure_type` values the classifier can emit. -/
inductive FailureType where
  | unknown
  | pure_oom
  | pure_gc
  | mixed_gc_oom
deriving DecidableEq

/-- The `confidence` values the classifier can emit. -/
inductive Confidence where
  | low
  | medium
  | high
deriving DecidableEq

/-- The analysis dictionary returned by `analyze_failure_pattern`. -/
structure Analysis where
  failure_type : FailureType
  confidence : Confidence
  key_evidence : List Str
  recommendations : List Str
deriving DecidableEq

/-- The OOM indicator list built at the top of `analyze_failure_pattern`:
four checks appended in source order, each in the specific log(s) the code
inspects. -/
def oomIndicatorsList (driver_log executor_log : Str) : List Str :=
  (if containsSub heapSpaceOomStr executor_log then ["Java heap space OOM".data] else []) ++
  (if containsSub containerKilledStr driver_log || containsSub containerKilledStr executor_log then
    ["Container killed by YARN".data] else []) ++
  (if containsSub freeZeroDotStr executor_log || containsSub freeZeroStr executor_log then
    ["Memory exhausted (0 free)".data] else []) ++
  (if containsSub exceedingLimitsStr driver_log || containsSub exceedingLimitsStr executor_log then
    ["Physical memory limit exceeded".data] else [])

/-- The GC indicator list of `analyze_failure_pattern`: a count phrase and
optional pause-statistics phrase when the executor log mentions
`"Full GC event took"`, then heartbeat (driver log, lowercased), stuck-in-GC
and GC-time-threshold phrases, in source order. -/
def gcIndicatorsList (driver_log executor_log : Str) : List Str :=
  (if containsSub fullGcTookStr executor_log then
    let gc_times := gcTimesOf executor_log
    (natStr (pyCount fullGcStr executor_log) ++ " Full GC events detected".data) ::
      (if gc_times.isEmpty then []
       else
        ["Max GC pause: ".data ++ intStr (listMaxI gc_times) ++ "ms, Avg: ".data ++
          fmtAvg (mkRat (intSum gc_times) gc_times.length) ++ "ms".data])
   else []) ++
  (if containsSub heartbeatTimeoutStr (lowerStr driver_log) then
    ["Heartbeat timeout (classic GC symptom)".data] else []) ++
  (if containsSub stuckInGcStr executor_log then ["Executor stuck in GC".data] else []) ++
  (if containsSub gcTimeExceededStr executor_log then
    ["GC time threshold exceeded".data] else [])

/-- The fixed leading evidence phrase of the GC-overhead branch (the source
uses an ASCII hyphen). -/
def gcOverheadLeadStr : Str :=
  "GC overhead limit exceeded - GC thrashing due to insufficient memory".data

/-- Recommendations of the GC-overhead (`mixed_gc_oom`, high) branch. -/
def recsOverhead : List Str :=
  ["Increase executor memory (primary fix)".data,
   "Reduce memory.storageFraction to limit caching".data,
   "Consider GC tuning: -XX:+UseG1GC".data,
   "Monitor GC logs with -XX:+PrintGCDetails".data]

/-- Recommendations of the `pure_oom` branch. -/
def recsPureOom : List Str :=
  ["Increase executor-memory".data,
   "Add spark.yarn.executor.memoryOverhead".data,
   "Use MEMORY_AND_DISK storage instead of MEMORY_ONLY".data,
   "Increase partition count to reduce per-partition data".data]

/-- Recommendations of the `pure_gc` branch. -/
def recsPureGc : List Str :=
  ["Tune GC: use G1GC instead of ParallelGC".data,
   "Increase executor memory to reduce GC pressure".data,
   "Reduce spark.memory.fraction to leave more heap for GC".data,
   "Monitor with: -XX:+PrintGCDetails -XX:+PrintGCTimeStamps".data]

/-- Recommendations of the both-present (`mixed_gc_oom`, medium) branch. -/
def recsMixedBoth : List Str :=
  ["Increase executor memory (addresses both issues)".data,
   "Tune GC settings".data,
   "Reduce caching pressure".data]

/-- Embedding of `analyze_failure_pattern`: indicator lists are computed
first; the GC-overhead executor-log check short-circuits to
`mixed_gc_oom`/high; otherwise Python's truthiness tests on the two lists
pick the branch, with the initial `unknown`/low/empty dictionary returned
when both lists are empty. -/
def analyze_failure_pattern (driver_log executor_log : Str) : Analysis :=
  let oom_indicators := oomIndicatorsList driver_log executor_log
  let gc_indicators := gcIndicatorsList driver_log executor_log
  if containsSub gcOverheadStr executor_log then
    { failure_type := .mixed_gc_oom
      confidence := .high
      key_evidence := gcOverheadLeadStr :: (gc_indicators ++ oom_indicators)
      recommendations := recsOverhead }
  else if !oom_indicators.isEmpty && gc_indicators.isEmpty then
    { failure_type := .pure_oom
      confidence := .high
      key_evidence := oom_indicators
      recommendations := recsPureOom }
  else if !gc_indicators.isEmpty && oom_indicators.isEmpty then
    { failure_type := .pure_gc
      confidence := .high
      key_evidence := gc_indicators
      recommendations := recsPureGc }
  else if !gc_indicators.isEmpty && !oom_indicators.isEmpty then
    { failure_type := .mixed_gc_oom
      confidence := .medium
      key_evidence := gc_indicators ++ oom_indicators
      recommendations := recsMixedBoth }
  else
    { failure_type := .unknown
      confidence := .low
      key_evidence := []
      recommendations := [] }

/-! ## Log corpus and lookup of `spark_gc_oom_demo.py` -/

/-- The `LOGS["oom_driver"]` fixture. -/
def logOomDriver : Str :=
  ("\n2025-10-01 10:24:45 WARN TaskSetManager: Lost task 0.0 in stage 3.0 (TID 150, executor 1): ExecutorLostFailure\n2025-10-01 10:24:45 ERROR TaskSchedulerImpl: Lost executor 1: Container killed by YARN for exceeding memory limits\n").data

/-- The `LOGS["oom_executor"]` fixture. -/
def logOomExecutor : Str :=
  ("\n2025-10-01 10:24:20 INFO MemoryStore: Block rdd_45_1 stored as bytes in memory (estimated size 1024.0 MB, free 0.0 B)\n2025-10-01 10:24:30 ERROR Executor: Exception in task 0.0 in stage 3.0 (TID 150)\njava.lang.OutOfMemoryError: Java heap space\n\tat java.util.Arrays.copyOf(Arrays.java:3332)\n2025-10-01 10:24:45 FATAL Container: Container killed by YARN. Current usage: 4.2 GB of 4 GB physical memory used\n").data

/-- The `LOGS["gc_driver"]` fixture. -/
def logGcDriver : Str :=
  ("\n2025-10-01 11:16:00 WARN TaskSetManager: Lost task 0.0 in stage 5.0 (TID 200, executor 2): ExecutorLostFailure\n2025-10-01 11:16:00 ERROR TaskSchedulerImpl: Lost executor 2: Remote RPC client disassociated. Likely due to heartbeat timeout.\n2025-10-01 11:16:01 WARN HeartbeatReceiver: Removing executor 2 with no recent heartbeats: 150000 ms exceeds timeout 120000 ms\n").data

/-- The `LOGS["gc_executor"]` fixture. -/
def logGcExecutor : Str :=
  ("\n2025-10-01 11:15:40 WARN Executor: GC time exceeded 10% threshold (12% of total time)\n2025-10-01 11:15:45 WARN Executor: Full GC event took 45000 ms\n2025-10-01 11:15:50 WARN Executor: Full GC event took 52000 ms\n2025-10-01 11:15:55 WARN Executor: Full GC event took 48000 ms\n2025-10-01 11:15:58 INFO Executor: Total GC time in last interval: 145000 ms (58% of interval)\n2025-10-01 11:16:00 ERROR CoarseGrainedExecutorBackend: Cannot send heartbeat to driver, executor appears to be stuck in GC\n").data

/-- The `LOGS["mixed_executor"]` fixture. -/
def logMixedExecutor : Str :=
  ("\n2025-10-01 12:00:10 WARN Executor: GC time exceeded 10% threshold (15% of total time)\n2025-10-01 12:00:15 WARN Executor: Full GC event took 35000 ms\n2025-10-01 12:00:25 WARN Executor: Full GC event took 42000 ms\n2025-10-01 12:00:30 ERROR Executor: Exception in task 0.0 in stage 7.0 (TID 300)\njava.lang.OutOfMemoryError: GC overhead limit exceeded\n\tat org.apache.spark.memory.MemoryManager.acquireExecutionMemory\n2025-10-01 12:00:35 FATAL Container: Process killed by YARN for exceeding memory limits\n").data

/-- Embedding of `get_log`: `LOGS.get(log_type, f"Error: Unknown log type ...")`,
a keyed lookup whose default is a formatted error string (the source quotes
the key with apostrophes). -/
def get_log (log_type : Str) : Str :=
  if log_type = "oom_driver".data then logOomDriver
  else if log_type = "oom_executor".data then logOomExecutor
  else if log_type = "gc_driver".data then logGcDriver
  else if log_type = "gc_executor".data then logGcExecutor
  else if log_type = "mixed_executor".data then logMixedExecutor
  else "Error: Unknown log type ".data ++ squote ++ log_type ++ squote

/-! ## The per-log predicates actually selecting the classifier branch -/

/-- True exactly when `analyze_failure_pattern`'s `gc_indicators` list is
non-empty: GC markers are read from the executor log, except the heartbeat
phrase which is read from the lowercased driver log. -/
def codeGcPresent (driver_log executor_log : Str) : Bool :=
  containsSub fullGcTookStr executor_log ||
  containsSub heartbeatTimeoutStr (lowerStr driver_log) ||
  containsSub stuckInGcStr executor_log ||
  containsSub gcTimeExceededStr executor_log

/-- True exactly when `analyze_failure_pattern`'s `oom_indicators` list is
non-empty: heap-space OOM and zero-free-memory are read from the executor
log only; container-killed and memory-limit from either log. -/
def codeOomPresent (driver_log executor_log : Str) : Bool :=
  containsSub heapSpaceOomStr executor_log ||
  (containsSub containerKilledStr driver_log || containsSub containerKilledStr executor_log) ||
  (containsSub freeZeroDotStr executor_log || containsSub freeZeroStr executor_log) ||
  (containsSub exceedingLimitsStr driver_log || containsSub exceedingLimitsStr executor_log)

/-- The failure type the non-short-circuit branches assign, as a function
of the two list-truthiness tests. -/
def branchFailureType (gc oom : Bool) : FailureType :=
  if oom && !gc then .pure_oom
  else if gc && !oom then .pure_gc
  else if gc && oom then .mixed_gc_oom
  else .unknown

/-- The confidence the non-short-circuit branches assign. -/
def branchConfidence (gc oom : Bool) : Confidence :=
  if oom && !gc then .high
  else if gc && !oom then .high
  else if gc && oom then .medium
  else .low

/-! ## Spec-side formalisations used to settle the claims -/

/-- The spec's `gc_present`, read as the claim words it: each GC indicator
of the extractor's record evaluated over the combined evidence of BOTH
logs (an occurrence in either log counts). -/
def specGcPresentCombined (d e : Str) : Bool :=
  (pyCount fullGcStr d + pyCount fullGcStr e != 0) ||
  (containsSub heartbeatStr (lowerStr d) && containsSub timeoutStr (lowerStr d)) ||
  (containsSub heartbeatStr (lowerStr e) && containsSub timeoutStr (lowerStr e)) ||
  containsSub stuckInGcStr d || containsSub stuckInGcStr e ||
  (pyCount gcTimeExceededStr d + pyCount gcTimeExceededStr e != 0)

/-- The spec's `oom_present` over the combined evidence of both logs, with
the OOM indicators as the spec's record defines them. -/
def specOomPresentCombined (d e : Str) : Bool :=
  containsSub heapSpaceOomStr d || containsSub heapSpaceOomStr e ||
  (containsSub containerKilledStr d || containsSub "killed by YARN".data d) ||
  (containsSub containerKilledStr e || containsSub "killed by YARN".data e) ||
  (containsSub exceedingLimitsStr d || containsSub exceedingLimitsStr e) ||
  (containsSub freeZeroDotStr d || containsSub freeZeroStr d) ||
  (containsSub freeZeroDotStr e || containsSub freeZeroStr e)

/-- Claim C2 as stated: whenever the GC-overhead rule does not fire, the
chosen branch is determined by the combined-log predicates. -/
def claimC2Statement : Prop :=
  ∀ d e : Str, containsSub gcOverheadStr e = false →
    (analyze_failure_pattern d e).failure_type
      = branchFailureType (specGcPresentCombined d e) (specOomPresentCombined d e)

/-- The driver log of the pure-GC scenario of claim C8. -/
def gcScenarioDriver : Str := "heartbeat timeout".data

/-- The executor log of the pure-GC scenario of claim C8: the three Full GC
duration lines plus the stuck-in-GC line, and no OOM markers. -/
def gcScenarioExecutor : Str :=
  ("Full GC event took 45000 ms\nFull GC event took 52000 ms\nFull GC event took 48000 ms\nstuck in GC").data

/-- The OOM indicator list is non-empty exactly when some OOM marker fires
in the log the code actually inspects for it. -/
theorem oomIndicatorsList_isEmpty (d e : Str) :
    (oomIndicatorsList d e).isEmpty = !codeOomPresent d e := by
  unfold oomIndicatorsList codeOomPresent
  cases h1 : containsSub heapSpaceOomStr e <;>
    cases h2 : containsSub containerKilledStr d || containsSub containerKilledStr e <;>
      cases h3 : containsSub freeZeroDotStr e || containsSub freeZeroStr e <;>
        cases h4 : containsSub exceedingLimitsStr d || containsSub exceedingLimitsStr e <;>
          simp [h1, h2, h3, h4]

/-- The GC indicator list is non-empty exactly when some GC marker fires in
the log the code actually inspects for it. -/
theorem gcIndicatorsList_isEmpty (d e : Str) :
    (gcIndicatorsList d e).isEmpty = !codeGcPresent d e := by
  unfold gcIndicatorsList codeGcPresent
  cases h1 : containsSub fullGcTookStr e <;>
    cases h2 : containsSub heartbeatTimeoutStr (lowerStr d) <;>
      cases h3 : containsSub stuckInGcStr e <;>
        cases h4 : containsSub gcTimeExceededStr e <;>
          simp [h1, h2, h3, h4]

/-- Splitting on a non-empty separator yields one more segment than the
non-overlapping occurrence count of that separator (fuelled workers). -/
theorem pySplitGo_length (sep : Str) (hs : sep ≠ []) :
    ∀ fuel t, t.length ≤ fuel →
      (pySplitGo sep fuel t).length = pyCountGo sep fuel t + 1 := by
  have hpos : 0 < sep.length := List.length_pos.mpr hs
  intro fuel
  induction fuel with
  | zero =>
    intro t ht
    have ht0 : t = [] := List.eq_nil_of_length_eq_zero (Nat.le_zero.mp ht)
    subst ht0
    simp [pySplitGo, pyCountGo]
  | succ n ih =>
    intro t ht
    match t with
    | [] => simp [pySplitGo, pyCountGo]
    | c :: rest =>
      by_cases h : listStartsWith sep (c :: rest)
      · have hlen : ((c :: rest).drop sep.length).length ≤ n := by
          simp only [List.length_drop, List.length_cons] at *
          omega
        simp only [pySplitGo, pyCountGo, h, if_true]
        rw [List.length_cons, ih _ hlen]
      · have hlen : rest.length ≤ n := by
          simp only [List.length_cons] at ht
          omega
        have ihr := ih rest hlen
        simp only [pySplitGo, pyCountGo, h, if_false, Bool.false_eq_true]
        cases hr : pySplitGo sep n rest with
        | nil => rw [hr] at ihr; simp at ihr
        | cons a l =>
          rw [hr] at ihr
          simp only [List.length_cons] at ihr ⊢
          omega

/-- Splitting a text on a non-empty separator yields one more segment than
`pyCount` of the separator. -/
theorem pySplit_length (sep t : Str) (hs : sep ≠ []) :
    (pySplit sep t).length = pyCount sep t + 1 := by
  have : sep.isEmpty = false := by simpa using hs
  unfold pySplit pyCount
  rw [this]
  simp only [Bool.false_eq_true, if_false]
  exact pySplitGo_length sep hs t.length t (Nat.le_refl _)


/-! ## Claims -/

/-- C1: for every pair of log texts, if the executor log contains the
substring "GC overhead limit exceeded" then `analyze_failure_pattern`
returns `failure_type = mixed_gc_oom` with `confidence = high`, regardless
of any other markers present in either log. -/
theorem C1_gc_overhead_precedence (d e : Str)
    (h : containsSub gcOverheadStr e = true) :
    (analyze_failure_pattern d e).failure_type = .mixed_gc_oom ∧
    (analyze_failure_pattern d e).confidence = .high := by
  simp [analyze_failure_pattern, h]

/-- Witness for C1 at a concrete executor log containing the marker. -/
theorem C1_gc_overhead_precedence_witness :
    (analyze_failure_pattern [] "x GC overhead limit exceeded y".data).failure_type
        = .mixed_gc_oom ∧
    (analyze_failure_pattern [] "x GC overhead limit exceeded y".data).confidence
        = .high :=
  C1_gc_overhead_precedence [] ("x GC overhead limit exceeded y").data (by decide)

/-- C2 as stated is false: with driver log "stuck in GC" and an empty
executor log, the combined-log predicates say `gc_present` and not
`oom_present` (so the claim requires `pure_gc`), but the code checks
"stuck in GC" only in the executor log and returns `unknown`. -/
theorem C2_counterexample : ¬ claimC2Statement := by
  intro h
  exact absurd (h ("stuck in GC").data [] (by decide)) (by decide)

/-- C2 amended: when the GC-overhead rule does not fire, the branch is
determined by the two predicates the code actually computes —
`gc_present` from the executor log's Full-GC/stuck/GC-time markers plus
the lowercased driver log's "heartbeat timeout" phrase, and `oom_present`
from the executor log's heap-space and zero-free markers plus the
container-killed and memory-limit markers of either log. -/
theorem C2_branch_predicates (d e : Str)
    (h : containsSub gcOverheadStr e = false) :
    (analyze_failure_pattern d e).failure_type
        = branchFailureType (codeGcPresent d e) (codeOomPresent d e) ∧
    (analyze_failure_pattern d e).confidence
        = branchConfidence (codeGcPresent d e) (codeOomPresent d e) := by
  cases hgb : codeGcPresent d e <;> cases hob : codeOomPresent d e <;>
    simp [analyze_failure_pattern, branchFailureType, branchConfidence, h,
      gcIndicatorsList_isEmpty, oomIndicatorsList_isEmpty, hgb, hob]

/-- Witness for the amended C2 at concrete logs taking the pure-GC branch. -/
theorem C2_branch_predicates_witness :
    (analyze_failure_pattern "heartbeat timeout".data "stuck in GC".data).failure_type
        = branchFailureType (codeGcPresent "heartbeat timeout".data "stuck in GC".data)
            (codeOomPresent "heartbeat timeout".data "stuck in GC".data) ∧
    (analyze_failure_pattern "heartbeat timeout".data "stuck in GC".data).confidence
        = branchConfidence (codeGcPresent "heartbeat timeout".data "stuck in GC".data)
            (codeOomPresent "heartbeat timeout".data "stuck in GC".data) :=
  C2_branch_predicates ("heartbeat timeout").data ("stuck in GC").data (by decide)

/-- C3 as stated is false: on the log "Full GC event took 0 ms" the
extracted duration sequence is the non-empty `[0]`, yet the average is
`0.0`, so "average = 0.0 iff the sequence is empty" fails. -/
theorem C3_counterexample :
    ¬ ((search_gc_indicators ("Full GC event took 0 ms").data).avg_gc_time_ms = 0 ↔
       (search_gc_indicators ("Full GC event took 0 ms").data).gc_event_times_ms = []) := by
  decide

/-- C3 amended: the average is `0.0` when the duration sequence is empty,
and equals the arithmetic mean of the sequence when it is non-empty (an
all-zero non-empty sequence also averages to `0.0`, so the converse of the
first part does not hold). -/
theorem C3_avg_mean (L : Str) :
    ((search_gc_indicators L).gc_event_times_ms = [] →
      (search_gc_indicators L).avg_gc_time_ms = 0) ∧
    ((search_gc_indicators L).gc_event_times_ms ≠ [] →
      (search_gc_indicators L).avg_gc_time_ms
        = (intSum (search_gc_indicators L).gc_event_times_ms : ℚ)
            / ((search_gc_indicators L).gc_event_times_ms.length : ℚ)) := by
  have hfield : (search_gc_indicators L).gc_event_times_ms = gcTimesOf L := rfl
  constructor
  · intro hnil
    rw [hfield] at hnil
    simp [search_gc_indicators, hnil]
  · intro hne
    rw [hfield] at hne
    have hne' : (gcTimesOf L).isEmpty = false := by simpa using hne
    show (if (gcTimesOf L).isEmpty then (0 : ℚ)
        else mkRat (intSum (gcTimesOf L)) (gcTimesOf L).length) = _
    rw [hne', if_neg (by simp), hfield]
    rw [Rat.mkRat_eq_divInt, Rat.divInt_eq_div]
    norm_cast

/-- Witness for the amended C3: the empty log averages to zero, and a
one-event log averages to its single duration. -/
theorem C3_avg_mean_witness :
    ((search_gc_indicators []).avg_gc_time_ms = 0) ∧
    ((search_gc_indicators ("x Full GC event took 45000 ms").data).avg_gc_time_ms
      = (intSum (search_gc_indicators ("x Full GC event took 45000 ms").data).gc_event_times_ms : ℚ)
          / ((search_gc_indicators ("x Full GC event took 45000 ms").data).gc_event_times_ms.length : ℚ)) :=
  ⟨(C3_avg_mean []).1 (by decide),
   (C3_avg_mean ("x Full GC event took 45000 ms").data).2 (by decide)⟩

/-- C4: for every pair of log texts, `failure_type = unknown` implies both
the evidence list and the recommendations list are empty, and
`failure_type ≠ unknown` implies the evidence list is non-empty. -/
theorem C4_unknown_iff_empty (d e : Str) :
    ((analyze_failure_pattern d e).failure_type = .unknown →
      (analyze_failure_pattern d e).key_evidence = [] ∧
      (analyze_failure_pattern d e).recommendations = []) ∧
    ((analyze_failure_pattern d e).failure_type ≠ .unknown →
      (analyze_failure_pattern d e).key_evidence ≠ []) := by
  by_cases hov : containsSub gcOverheadStr e = true
  · simp [analyze_failure_pattern, hov]
  · have hov' : containsSub gcOverheadStr e = false := by simpa using hov
    cases hg : gcIndicatorsList d e <;> cases ho : oomIndicatorsList d e <;>
      simp [analyze_failure_pattern, hov', hg, ho]

/-- Witness for C4: the empty-logs case is `unknown` with empty lists, and
a stuck-in-GC executor log yields a non-`unknown` type with evidence. -/
theorem C4_unknown_iff_empty_witness :
    ((analyze_failure_pattern [] []).key_evidence = [] ∧
     (analyze_failure_pattern [] []).recommendations = []) ∧
    (analyze_failure_pattern [] "stuck in GC".data).key_evidence ≠ [] :=
  ⟨(C4_unknown_iff_empty [] []).1 (by decide),
   (C4_unknown_iff_empty [] ("stuck in GC").data).2 (by decide)⟩

/-- C5 as stated is false: when the GC-overhead rule fires the evidence
list does begin with the fixed phrase, but the source writes it with an
ASCII hyphen ("... exceeded - GC thrashing ..."), not the em dash the
claim quotes. -/
theorem C5_counterexample :
    containsSub gcOverheadStr ("GC overhead limit exceeded").data = true ∧
    (analyze_failure_pattern [] ("GC overhead limit exceeded").data).key_evidence.head?
      ≠ some ("GC overhead limit exceeded — GC thrashing due to insufficient memory").data := by
  decide

/-- C5 amended: whenever the GC-overhead rule fires, the evidence list is
exactly the fixed phrase "GC overhead limit exceeded - GC thrashing due to
insufficient memory" (ASCII hyphen) followed by all formatted GC evidence
strings and then all formatted OOM evidence strings, in that order. -/
theorem C5_overhead_evidence (d e : Str)
    (h : containsSub gcOverheadStr e = true) :
    (analyze_failure_pattern d e).key_evidence
      = gcOverheadLeadStr :: (gcIndicatorsList d e ++ oomIndicatorsList d e) := by
  simp [analyze_failure_pattern, h]

/-- Witness for the amended C5 at a concrete overhead-marked executor log. -/
theorem C5_overhead_evidence_witness :
    (analyze_failure_pattern [] ("GC overhead limit exceeded").data).key_evidence
      = gcOverheadLeadStr ::
          (gcIndicatorsList [] ("GC overhead limit exceeded").data ++
            oomIndicatorsList [] ("GC overhead limit exceeded").data) :=
  C5_overhead_evidence [] ("GC overhead limit exceeded").data (by decide)

/-- C6: `search_gc_indicators` reports `full_gc_events` as the number of
non-overlapping occurrences of "Full GC event" in the whole text (the
left-to-right scan of `pyCount`); equivalently, splitting the text on that
substring yields exactly one more segment than the reported count. -/
theorem C6_full_gc_count (L : Str) :
    (search_gc_indicators L).full_gc_events = pyCount fullGcStr L ∧
    (pySplit fullGcStr L).length = pyCount fullGcStr L + 1 :=
  ⟨rfl, pySplit_length fullGcStr L (by decide)⟩

/-- C7 as stated is false: an unknown key makes `get_log` return its
sentinel error string, but that string reads "Error: Unknown log type
'bogus'" and contains no "not found" marker. -/
theorem C7_counterexample :
    containsSub ("not found").data (get_log ("bogus").data) = false ∧
    get_log ("bogus").data
      = "Error: Unknown log type ".data ++ squote ++ "bogus".data ++ squote := by
  decide

/-- C7 amended: an unknown key passed to `get_log`, or an unmatched
id/scenario combination passed to `get_executor_log`, returns a sentinel
string beginning with "Error:" rather than raising (`get_driver_log` has
no sentinel at all: every non-"gc" scenario falls back to the OOM driver
log). -/
theorem C7_unknown_key_sentinel :
    (∀ t : Str, t ≠ "oom_driver".data → t ≠ "oom_executor".data →
      t ≠ "gc_driver".data → t ≠ "gc_executor".data → t ≠ "mixed_executor".data →
      listStartsWith "Error:".data (get_log t) = true) ∧
    (∀ (i : Int) (s : Str), ¬(s = "gc".data ∧ i = 2) → ¬(s = "mixed".data ∧ i = 3) →
      i ≠ 1 → listStartsWith "Error:".data (get_executor_log i s) = true) := by
  constructor
  · intro t h1 h2 h3 h4 h5
    unfold get_log
    rw [if_neg h1, if_neg h2, if_neg h3, if_neg h4, if_neg h5]
    rfl
  · intro i s h1 h2 h3
    unfold get_executor_log
    rw [if_neg h1, if_neg h2, if_neg h3]
    rfl

/-- Witness for the amended C7 at an unknown log key and an unmatched
executor id/scenario pair. -/
theorem C7_unknown_key_sentinel_witness :
    listStartsWith "Error:".data (get_log ("bogus").data) = true ∧
    listStartsWith "Error:".data (get_executor_log 5 ("oom").data) = true :=
  ⟨C7_unknown_key_sentinel.1 ("bogus").data (by decide) (by decide) (by decide)
      (by decide) (by decide),
   C7_unknown_key_sentinel.2 5 ("oom").data (by decide) (by decide) (by decide)⟩

/-- C8: on the pure-GC scenario (driver log "heartbeat timeout"; executor
log with the three Full-GC-duration lines and "stuck in GC"; no OOM
markers) the classifier returns `pure_gc` with high confidence, the
maximum extracted duration is 52000 ms, and the average is exactly
145000/3 ms, which rounds to the reported 48333. -/
theorem C8_pure_gc_scenario :
    (analyze_failure_pattern gcScenarioDriver gcScenarioExecutor).failure_type = .pure_gc ∧
    (analyze_failure_pattern gcScenarioDriver gcScenarioExecutor).confidence = .high ∧
    (search_gc_indicators gcScenarioExecutor).max_gc_time_ms = 52000 ∧
    (search_gc_indicators gcScenarioExecutor).avg_gc_time_ms = mkRat 145000 3 ∧
    roundQ (search_gc_indicators gcScenarioExecutor).avg_gc_time_ms = 48333 := by
  decide

/-- C9: duration extraction processes exactly the lines containing
"Full GC event took", applying the took/ms integer parse to each; a line
whose parse fails contributes nothing (the `filterMap` simply drops it,
extraction is total), and the full-GC event count is computed from the
whole text independently of any parse outcome. -/
theorem C9_duration_extraction (L : Str) :
    (search_gc_indicators L).gc_event_times_ms
      = ((pySplit newlineStr L).filter fun line =>
          containsSub fullGcTookStr line).filterMap parseGcTime ∧
    (search_gc_indicators L).full_gc_events = pyCount fullGcStr L := by
  constructor
  · have h1 : (search_gc_indicators L).gc_event_times_ms = gcTimesOf L := rfl
    rw [h1]
    unfold gcTimesOf
    exact (List.filterMap_filter _ _ _).symm
  · rfl

/-- C10: every scenario string other than "gc" — empty, misspelled or
entirely unrecognised — makes `get_driver_log` return the fixed OOM driver
log, which contains neither an error nor a "not found" sentinel. -/
theorem C10_driver_log_fallback (s : Str) (h : s ≠ "gc".data) :
    get_driver_log s = DRIVER_LOG_OOM ∧
    containsSub "Error".data (get_driver_log s) = false ∧
    containsSub ("not found").data (get_driver_log s) = false := by
  have h1 : get_driver_log s = DRIVER_LOG_OOM := by
    unfold get_driver_log
    rw [if_neg h]
  refine ⟨h1, ?_, ?_⟩ <;> rw [h1] <;> decide

/-- Witness for C10 at a concrete unrecognised scenario key. -/
theorem C10_driver_log_fallback_witness :
    get_driver_log ("bogus").data = DRIVER_LOG_OOM ∧
    containsSub "Error".data (get_driver_log ("bogus").data) = false ∧
    containsSub ("not found").data (get_driver_log ("bogus").data) = false :=
  C10_driver_log_fallback ("bogus").data (by decide)
